import Mathlib

/-!
Shallow embedding of the provisioning-configuration compiler of the
Cloud-Web-Infrastructure repository: the host-system customizer
(src/host_system/host_system.go), the network customizer
(src/unnamed/part_000, package network), and the parsers package
(src/parsers/parsers.go), together with the semantics of the library
calls the code relies on (the Go reflect package, gorm Find, govmomi
SearchIndex.FindByInventoryPath, encoding/json).
-/

namespace Infra

/-- Outcome of a Go call that returns a (value, error) pair and may also
panic at runtime: `ok` models a return with a nil error, `err` a return
with a non-nil error built by errors.New, and `panicked` a runtime panic
escaping the function. -/
inductive GoOutcome (α : Type) where
  | ok (value : α)
  | err (message : String)
  | panicked
deriving DecidableEq, Repr

/-- True exactly when the outcome is a returned, non-nil Go error value
(neither a normal return nor a panic). -/
def GoOutcome.isErr {α : Type} : GoOutcome α → Bool
  | .err _ => true
  | _ => false

/-
==========================================================================
host_system/host_system.go
==========================================================================
-/

/-- The two govmomi customization-option variants the code can return:
types.CustomizationLinuxOptions and types.CustomizationWinOptions
(host_system.go lines 50 and 53). -/
inductive BaseCustomizationOptions where
  | linuxOptions
  | winOptions
deriving DecidableEq, Repr

/-- host_system.go line 47: the configured set of known Linux
distribution names; the source initializes it as the empty slice. -/
def LinuxDistributions : List String := []

/-- host_system.go line 48 (name spelled as in the source): the
configured set of known Windows distribution names; also initialized as
the empty slice. -/
def WindowsDistrubitions : List String := []

/-- GetDefaultCustomizationOptions (host_system.go lines 45-56): matches
the lower-cased system name against the two configured sets with
slices.Contains and returns the matching variant, falling through to
errors.New("Invalid Host System Name") when neither set contains it. -/
def GetDefaultCustomizationOptions (SystemName : String) :
    GoOutcome BaseCustomizationOptions :=
  if LinuxDistributions.contains SystemName.toLower then .ok .linuxOptions
  else if WindowsDistrubitions.contains SystemName.toLower then .ok .winOptions
  else .err "Invalid Host System Name"

/-- parsers.go line 61: GetDatacenter bounds its remote calls with
context.WithTimeout(context.Background(), time.Minute * 10). -/
def getDatacenterTimeoutMinutes : Nat := 10

/-- parsers.go line 144: the VM lookup inside GetDiskStorageConfig is
bounded by context.WithTimeout(context.Background(), time.Minute * 1). -/
def getDiskStorageTimeoutMinutes : Nat := 1

/-- host_system.go line 62: SetupHostSystem is bounded by
context.WithTimeout(context.Background(), time.Minute * 1). -/
def setupHostSystemTimeoutMinutes : Nat := 1

/-
==========================================================================
src/unnamed/part_000 (package network)
==========================================================================
-/

/-- VirtualMachineIPAddress (part_000 lines 40-47): the Options field
holds a govmomi interface value (nil unless assigned) and the four
identity fields are strings. -/
structure VirtualMachineIPAddress where
  Options : Option BaseCustomizationOptions
  IPv4 : String
  Netmask : String
  Gateway : String
  Hostname : String
deriving DecidableEq, Repr

/-- NewVirtualMachineIPAddress (part_000 lines 90-97): sets the four
identity fields and leaves Options nil. -/
def NewVirtualMachineIPAddress (IPv4 Netmask Gateway Hostname : String) :
    VirtualMachineIPAddress :=
  { Options := none, IPv4 := IPv4, Netmask := Netmask,
    Gateway := Gateway, Hostname := Hostname }

/-- GetValidationRegexPatterns (part_000 lines 49-52): the per-field
validation pattern table is the empty map in the source. -/
def GetValidationRegexPatterns : List (String × String) := []

/-- Kinds of govmomi IP generators that the table on part_000 lines
58-69 declares: CustomizationCustomIpGenerator and
CustomizationDhcpIpGenerator. -/
inductive IpGeneratorKind where
  | customIp
  | dhcp
deriving DecidableEq, Repr

/-- FieldValueGenerators (part_000 lines 58-69): the field-to-generator
table of ValidateCredentials. Only Gateway, Netmask and Hostname have
entries; the IPv4 field has no declared generator. -/
def FieldValueGenerators : List (String × IpGeneratorKind) :=
  [("Gateway", .customIp), ("Netmask", .dhcp), ("Hostname", .customIp)]

/-- The kinds of the Go reflect package relevant to ValidateCredentials:
the receiver is a pointer, and only a struct kind supports field
iteration. -/
inductive ReflectKind where
  | ptrKind
  | structKind
deriving DecidableEq, Repr

/-- The receiver `this` of ValidateCredentials has Go type
pointer-to-VirtualMachineIPAddress (part_000 line 54), so
reflect.TypeOf(this) yields a reflect.Type of kind Ptr. -/
def receiverReflectKind : ReflectKind := .ptrKind

/-- Semantics of reflect.Type.NumField: it is defined only for the
Struct kind (VirtualMachineIPAddress has five struct fields); calling
it on a type of any other kind panics at runtime, modelled by none. -/
def reflectNumField : ReflectKind → Option Nat
  | .structKind => some 5
  | .ptrKind => none

/-- ValidateCredentials (part_000 lines 54-88). The loop guard on line
73 evaluates reflect.TypeOf(this).NumField() where the receiver has
kind Ptr, so the call panics before any field is read or any generator
consulted; none models that runtime panic. The branch for a struct-kind
receiver is unreachable and is kept only to make the match total. -/
def ValidateCredentials (this : VirtualMachineIPAddress) :
    Option VirtualMachineIPAddress :=
  match reflectNumField receiverReflectKind with
  | none => none
  | some _ => some this

/-- The govmomi types.CustomizationFixedIp value built on part_000 line
114. -/
structure CustomizationFixedIp where
  IpAddress : String
deriving DecidableEq, Repr

/-- The parts of govmomi types.CustomizationSpec that SetupPublicNetwork
fills (part_000 lines 111-130): the fixed IP, subnet mask, gateway list
and auto-IPv6 generator of the adapter mapping, plus the fixed host
name of the identity block. -/
structure CustomizationSpec where
  Options : Option BaseCustomizationOptions
  FixedIp : CustomizationFixedIp
  SubnetMask : String
  Gateway : List String
  AutoIpV6 : Bool
  HostName : String
deriving DecidableEq, Repr

/-- SetupPublicNetwork (part_000 lines 107-132): first calls
ValidateCredentials on the input (which panics, see above); on a normal
return it assembles the adapter mapping and identity from the returned
fields and returns a nil error. The function has no failing return path
of its own: its only return statement pairs the spec with nil. -/
def SetupPublicNetwork (IPCredentials : VirtualMachineIPAddress) :
    GoOutcome CustomizationSpec :=
  match ValidateCredentials IPCredentials with
  | none => .panicked
  | some c =>
      .ok { Options := c.Options,
            FixedIp := { IpAddress := c.IPv4 },
            SubnetMask := c.Netmask,
            Gateway := [c.Gateway],
            AutoIpV6 := true,
            HostName := c.Hostname }

/-- Input for the C2 analysis: the IPv4 field is empty (and has no
declared generator) while the remaining fields hold plausible values. -/
def c2Input : VirtualMachineIPAddress :=
  NewVirtualMachineIPAddress "" "255.255.255.0" "192.168.1.1" "vm-host-a"

/-- Input for the C3 analysis: all four identity fields empty. -/
def c3AllEmptyInput : VirtualMachineIPAddress :=
  NewVirtualMachineIPAddress "" "" "" ""

/-- Input for the C4 analysis: all four identity fields populated with
well-formed values. -/
def c4FullInput : VirtualMachineIPAddress :=
  NewVirtualMachineIPAddress "192.168.0.10" "255.255.255.0" "192.168.0.1" "vm-host-b"

/-
==========================================================================
parsers/parsers.go: DatacenterConfig and GetDatacenter
==========================================================================
-/

/-- The nested Datacenter member of DatacenterConfig (parsers.go lines
46-48). -/
structure DatacenterItem where
  ItemPath : String
deriving DecidableEq, Repr

/-- DatacenterConfig (parsers.go lines 42-49). -/
structure DatacenterConfig where
  Datacenter : DatacenterItem
deriving DecidableEq, Repr

/-- The managed-object content that property RetrieveOne fills for a
datacenter. -/
structure MoDatacenter where
  selfRef : String
deriving DecidableEq, Repr

/-- GetDatacenter (parsers.go lines 57-73), with the remote control
plane abstracted: `inventory` maps an inventory path to the reference
it resolves to, and `retrieveOne` is the property-collector call on the
resolved reference. govmomi SearchIndex.FindByInventoryPath returns a
nil reference and a nil error for a path that resolves to no object,
and a nil reference with the context error when the bounding context
expires (`findTimedOut`). The source evaluates Datacenter.Reference()
on line 67 before checking FindError on line 68, so every outcome in
which the returned reference is nil is a method call on a nil interface
value: a runtime panic, reached before the error check. When a
reference is returned, both a retrieve failure and a find failure
collapse to the single errors.New("Datacenter Does Not Exist"). -/
def GetDatacenter (cfg : DatacenterConfig) (inventory : String → Option String)
    (findTimedOut : Bool) (retrieveOne : String → Except String MoDatacenter) :
    GoOutcome MoDatacenter :=
  let findResult : Option String × Option String :=
    if findTimedOut then (none, some "context deadline exceeded")
    else (inventory cfg.Datacenter.ItemPath, none)
  match findResult.1 with
  | none => .panicked
  | some ref =>
      match retrieveOne ref with
      | .error _ => .err "Datacenter Does Not Exist"
      | .ok dc =>
          match findResult.2 with
          | some _ => .err "Datacenter Does Not Exist"
          | none => .ok dc

/-- Input for the C6 analysis: a datacenter config whose inventory path
resolves to no object. -/
def c6Config : DatacenterConfig :=
  { Datacenter := { ItemPath := "/Datacenter/unresolved" } }

/-- Input for the C6 analysis: a control plane on which no inventory
path resolves. -/
def c6Inventory : String → Option String := fun _ => none

/-- Input for the C6 analysis: a property collector that succeeds on
any reference it is handed. -/
def c6RetrieveOne : String → Except String MoDatacenter :=
  fun ref => .ok { selfRef := ref }

/-
==========================================================================
parsers/parsers.go: VirtualMachineCustomSpec and NewCustomConfig
==========================================================================
-/

/-- The Metadata member of VirtualMachineCustomSpec (parsers.go lines
78-81). -/
structure SpecMetadata where
  VirtualMachineId : String
  VmOwnerId : String
deriving DecidableEq, Repr

/-- The HostSystem member of VirtualMachineCustomSpec (parsers.go lines
83-86). Go int64 is modelled by Int; the round-trip property is about
value preservation, not word-level overflow. -/
structure SpecHostSystem where
  DistributionName : String
  Bit : Int
deriving DecidableEq, Repr

/-- The Network member of VirtualMachineCustomSpec (parsers.go lines
88-95); every field carries the omitempty JSON option. -/
structure SpecNetwork where
  IP : String
  Netmask : String
  Hostname : String
  Gateway : String
  Enablev6 : Bool
  Enablev4 : Bool
deriving DecidableEq, Repr

/-- The Resources member of VirtualMachineCustomSpec (parsers.go lines
98-101). -/
structure SpecResources where
  CpuNum : Int
  MemoryInMegabytes : Int
deriving DecidableEq, Repr

/-- The Disk member of VirtualMachineCustomSpec (parsers.go lines
103-105). -/
structure SpecDisk where
  CapacityInKB : Int
deriving DecidableEq, Repr

/-- VirtualMachineCustomSpec (parsers.go lines 75-106). -/
structure VirtualMachineCustomSpec where
  Metadata : SpecMetadata
  HostSystem : SpecHostSystem
  Network : SpecNetwork
  Resources : SpecResources
  Disk : SpecDisk
deriving DecidableEq, Repr

/-- The JSON documents exchanged with encoding/json, at the level of the
abstract syntax tree (the textual layer of Marshal and Unmarshal is a
faithful bijection on these trees). -/
inductive Json where
  | jstr (s : String)
  | jnum (n : Int)
  | jbool (b : Bool)
  | jobj (fields : List (String × Json))

/-- Member lookup in a JSON object, returning the first binding of the
key (the encoder below never emits duplicate keys). -/
def findKey (fields : List (String × Json)) (key : String) : Option Json :=
  match fields with
  | [] => none
  | (k, v) :: rest => if k = key then some v else findKey rest key

/-- encoding/json Marshal of the Metadata member: both fields have
plain JSON tags, so both are always emitted. -/
def encodeMetadata (m : SpecMetadata) : List (String × Json) :=
  [("VirtualMachineId", .jstr m.VirtualMachineId), ("VmOwnerId", .jstr m.VmOwnerId)]

/-- encoding/json Marshal of the HostSystem member. The struct tag of
Bit is written with a semicolon, `json:"Bit;omitempty"`; a semicolon is
a valid tag-name character and there is no comma, so the member key is
the literal string "Bit;omitempty" and no omitempty option applies:
the member is always emitted. -/
def encodeHostSystem (h : SpecHostSystem) : List (String × Json) :=
  [("DistributionName", .jstr h.DistributionName), ("Bit;omitempty", .jnum h.Bit)]

/-- encoding/json Marshal of the Network member: every field carries
omitempty, so a zero-valued field (empty string, false) is omitted from
the document. Members appear in struct order. -/
def encodeNetwork (n : SpecNetwork) : List (String × Json) :=
  (if n.IP = "" then [] else [("IP", Json.jstr n.IP)]) ++
  (if n.Netmask = "" then [] else [("Netmask", Json.jstr n.Netmask)]) ++
  (if n.Hostname = "" then [] else [("Hostname", Json.jstr n.Hostname)]) ++
  (if n.Gateway = "" then [] else [("Gateway", Json.jstr n.Gateway)]) ++
  (if n.Enablev6 = false then [] else [("Enablev6", Json.jbool n.Enablev6)]) ++
  (if n.Enablev4 = false then [] else [("Enablev4", Json.jbool n.Enablev4)])

/-- encoding/json Marshal of the Resources member. -/
def encodeResources (r : SpecResources) : List (String × Json) :=
  [("CpuNum", .jnum r.CpuNum), ("MemoryInMegabytes", .jnum r.MemoryInMegabytes)]

/-- encoding/json Marshal of the Disk member. -/
def encodeDisk (d : SpecDisk) : List (String × Json) :=
  [("CapacityInKB", .jnum d.CapacityInKB)]

/-- encoding/json Marshal of a whole VirtualMachineCustomSpec: the five
top-level members carry plain tags and are always emitted, in struct
order. -/
def encodeVirtualMachineCustomSpec (spec : VirtualMachineCustomSpec) : Json :=
  .jobj [("Metadata", .jobj (encodeMetadata spec.Metadata)),
         ("HostSystem", .jobj (encodeHostSystem spec.HostSystem)),
         ("Network", .jobj (encodeNetwork spec.Network)),
         ("Resources", .jobj (encodeResources spec.Resources)),
         ("Disk", .jobj (encodeDisk spec.Disk))]

/-- encoding/json Unmarshal of a string-typed struct field: an absent
member leaves the zero value (the empty string); a present member must
be a JSON string. -/
def getStrField (fields : List (String × Json)) (key : String) : Except String String :=
  match findKey fields key with
  | none => .ok ""
  | some (.jstr s) => .ok s
  | some _ => .error "json: cannot unmarshal value into Go field of string type"

/-- encoding/json Unmarshal of an integer-typed struct field: an absent
member leaves the zero value; a present member must be a JSON number
(integral JSON numbers round-trip exactly into Go integer fields). -/
def getIntField (fields : List (String × Json)) (key : String) : Except String Int :=
  match findKey fields key with
  | none => .ok 0
  | some (.jnum n) => .ok n
  | some _ => .error "json: cannot unmarshal value into Go field of integer type"

/-- encoding/json Unmarshal of a bool-typed struct field: an absent
member leaves the zero value false; a present member must be a JSON
boolean. -/
def getBoolField (fields : List (String × Json)) (key : String) : Except String Bool :=
  match findKey fields key with
  | none => .ok false
  | some (.jbool b) => .ok b
  | some _ => .error "json: cannot unmarshal value into Go field of bool type"

/-- encoding/json Unmarshal of a nested struct member: an absent member
leaves the nested struct zero-valued, which decodes identically to the
empty object; a present member must be a JSON object. -/
def getObjField (fields : List (String × Json)) (key : String) :
    Except String (List (String × Json)) :=
  match findKey fields key with
  | none => .ok []
  | some (.jobj inner) => .ok inner
  | some _ => .error "json: cannot unmarshal value into Go field of struct type"

/-- Unmarshal of the Metadata member. -/
def decodeMetadata (fields : List (String × Json)) : Except String SpecMetadata :=
  match getStrField fields "VirtualMachineId", getStrField fields "VmOwnerId" with
  | .ok vmId, .ok ownerId => .ok { VirtualMachineId := vmId, VmOwnerId := ownerId }
  | .error e, _ => .error e
  | _, .error e => .error e

/-- Unmarshal of the HostSystem member (the Bit member key is the
literal "Bit;omitempty", see encodeHostSystem). -/
def decodeHostSystem (fields : List (String × Json)) : Except String SpecHostSystem :=
  match getStrField fields "DistributionName", getIntField fields "Bit;omitempty" with
  | .ok name, .ok bit => .ok { DistributionName := name, Bit := bit }
  | .error e, _ => .error e
  | _, .error e => .error e

/-- Unmarshal of the Network member. -/
def decodeNetwork (fields : List (String × Json)) : Except String SpecNetwork :=
  match getStrField fields "IP", getStrField fields "Netmask",
        getStrField fields "Hostname", getStrField fields "Gateway",
        getBoolField fields "Enablev6", getBoolField fields "Enablev4" with
  | .ok ip, .ok netmask, .ok hostname, .ok gateway, .ok e6, .ok e4 =>
      .ok { IP := ip, Netmask := netmask, Hostname := hostname,
            Gateway := gateway, Enablev6 := e6, Enablev4 := e4 }
  | .error e, _, _, _, _, _ => .error e
  | _, .error e, _, _, _, _ => .error e
  | _, _, .error e, _, _, _ => .error e
  | _, _, _, .error e, _, _ => .error e
  | _, _, _, _, .error e, _ => .error e
  | _, _, _, _, _, .error e => .error e

/-- Unmarshal of the Resources member. -/
def decodeResources (fields : List (String × Json)) : Except String SpecResources :=
  match getIntField fields "CpuNum", getIntField fields "MemoryInMegabytes" with
  | .ok cpu, .ok mem => .ok { CpuNum := cpu, MemoryInMegabytes := mem }
  | .error e, _ => .error e
  | _, .error e => .error e

/-- Unmarshal of the Disk member. -/
def decodeDisk (fields : List (String × Json)) : Except String SpecDisk :=
  match getIntField fields "CapacityInKB" with
  | .ok cap => .ok { CapacityInKB := cap }
  | .error e => .error e

/-- NewCustomConfig (parsers.go lines 108-112): json.Unmarshal of the
customer document into a VirtualMachineCustomSpec, returning the decode
error unchanged. -/
def NewCustomConfig (document : Json) : Except String VirtualMachineCustomSpec :=
  match document with
  | .jobj fields =>
      (match getObjField fields "Metadata", getObjField fields "HostSystem",
             getObjField fields "Network", getObjField fields "Resources",
             getObjField fields "Disk" with
       | .ok md, .ok hs, .ok nw, .ok rs, .ok dk =>
           (match decodeMetadata md, decodeHostSystem hs, decodeNetwork nw,
                  decodeResources rs, decodeDisk dk with
            | .ok m, .ok h, .ok n, .ok r, .ok d =>
                .ok { Metadata := m, HostSystem := h, Network := n,
                      Resources := r, Disk := d }
            | .error e, _, _, _, _ => .error e
            | _, .error e, _, _, _ => .error e
            | _, _, .error e, _, _ => .error e
            | _, _, _, .error e, _ => .error e
            | _, _, _, _, .error e => .error e)
       | .error e, _, _, _, _ => .error e
       | _, .error e, _, _, _ => .error e
       | _, _, .error e, _, _ => .error e
       | _, _, _, .error e, _ => .error e
       | _, _, _, _, .error e => .error e)
  | _ => .error "json: cannot unmarshal value into Go value of type VirtualMachineCustomSpec"

/-
==========================================================================
parsers/parsers.go: GetDiskStorageConfig
==========================================================================
-/

/-- Modelled from the spec: the durable VM ownership record of the
external data store (package models is not under src/). The spec
describes it as the customer/VM ownership record matched by
{VmId, OwnerId}; the provisioner reads the primary key id, the
owner_id column and the inventory ItemPath of the live object. -/
structure VmRecord where
  id : String
  owner_id : String
  ItemPath : String
deriving DecidableEq, Repr

/-- Semantics of Database.Model(...).Where("id = ? AND owner_id = ?",
vmId, ownerId).Find(&Vm) (parsers.go lines 147-148) under gorm.io/gorm
v2, the generation matching the rest of the repository (Go 1.18+,
golang.org/x/exp): Find reports no error when zero rows match (only
First, Take and Last set ErrRecordNotFound) and leaves the destination
zero-valued, so Vm.ItemPath is then the empty string. The pair is
(destination value, Gorm.Error). -/
def gormFindVm (db : List VmRecord) (vmId ownerId : String) :
    VmRecord × Option String :=
  match db.find? (fun r => r.id == vmId && r.owner_id == ownerId) with
  | some r => (r, none)
  | none => ({ id := "", owner_id := "", ItemPath := "" }, none)

/-- The live control-plane VM object: mo.VirtualMachine carries the
list of attached datastore references that parsers.go line 161 indexes. -/
structure VmObject where
  Datastore : List String
deriving DecidableEq, Repr

/-- GetDiskStorageConfig (parsers.go lines 136-167), with the external
collaborators abstracted: `db` is the ownership record store and
`inventory` maps an inventory path to the live VM object it resolves
to. The inner closure looks the record up by {VirtualMachineId,
VmOwnerId} and then resolves Vm.ItemPath; govmomi FindByInventoryPath
returns a nil reference and a nil error when the path resolves to
nothing - in particular for the empty path of the zero-valued record -
and line 154 then evaluates the single-value type assertion
VirtualMachine.(*object.VirtualMachine) on that nil interface value,
which panics. When a reference is returned, line 161 asserts
object.NewReference(...), whose dynamic type is
*object.VirtualMachine, to the unrelated type *mo.VirtualMachine; that
assertion panics unconditionally, so the Datastore[0] selection and the
disk-spec construction behind it are unreachable (hence the Unit result
type: no configuration value is ever produced). -/
def GetDiskStorageConfig (db : List VmRecord) (inventory : String → Option VmObject)
    (this : VirtualMachineCustomSpec) : GoOutcome Unit :=
  let found := gormFindVm db this.Metadata.VirtualMachineId this.Metadata.VmOwnerId
  match found.2 with
  | some e => .err e
  | none =>
      match inventory found.1.ItemPath with
      | none => .panicked
      | some _vmObject => .panicked

/-- A VirtualMachineCustomSpec whose sections other than Metadata are
zero-valued; GetDiskStorageConfig reads only Metadata (and would read
Disk only in its unreachable tail). -/
def specWithMetadata (vmId ownerId : String) : VirtualMachineCustomSpec :=
  { Metadata := { VirtualMachineId := vmId, VmOwnerId := ownerId },
    HostSystem := { DistributionName := "", Bit := 0 },
    Network := { IP := "", Netmask := "", Hostname := "", Gateway := "",
                 Enablev6 := false, Enablev4 := false },
    Resources := { CpuNum := 0, MemoryInMegabytes := 0 },
    Disk := { CapacityInKB := 0 } }

/-- Input for the C5 analysis: the record store holds vm-1 owned by
owner-2. -/
def c5Db : List VmRecord :=
  [{ id := "vm-1", owner_id := "owner-2", ItemPath := "/Datacenter/vm/present" }]

/-- Input for the C5 analysis: the control plane resolves only the path
of the record above (and, in particular, not the empty path). -/
def c5Inventory : String → Option VmObject :=
  fun path => if path == "/Datacenter/vm/present"
              then some { Datastore := ["datastore-1"] } else none

/-- Input for the C5 analysis: owner-9 asks for vm-1, which exists but
belongs to owner-2. -/
def c5SpecWrongOwner : VirtualMachineCustomSpec := specWithMetadata "vm-1" "owner-9"

/-- Input for the C5 analysis: owner-9 asks for vm-404, which matches
no record at all. -/
def c5SpecAbsent : VirtualMachineCustomSpec := specWithMetadata "vm-404" "owner-9"

/-- Input for the C7 analysis: the record store holds vm-7, owned by
the requester. -/
def c7Db : List VmRecord :=
  [{ id := "vm-7", owner_id := "owner-7", ItemPath := "/Datacenter/vm/no-datastores" }]

/-- Input for the C7 analysis: the owned VM resolves to a live object
with zero attached datastores. -/
def c7Inventory : String → Option VmObject :=
  fun path => if path == "/Datacenter/vm/no-datastores"
              then some { Datastore := [] } else none

/-- Input for the C7 analysis: the owner of vm-7 asks for its disk
configuration. -/
def c7Spec : VirtualMachineCustomSpec := specWithMetadata "vm-7" "owner-7"

/-
==========================================================================
Helper lemmas
==========================================================================
-/

/-- When no record matches both the id and the owner, gorm Find returns
the zero-valued record and a nil error. -/
theorem gormFindVm_no_match (db : List VmRecord) (vmId ownerId : String)
    (h : ∀ r ∈ db, ¬(r.id = vmId ∧ r.owner_id = ownerId)) :
    gormFindVm db vmId ownerId = ({ id := "", owner_id := "", ItemPath := "" }, none) := by
  unfold gormFindVm
  have hfind : db.find? (fun r => r.id == vmId && r.owner_id == ownerId) = none := by
    rw [List.find?_eq_none]
    intro r hr
    have := h r hr
    simp only [Bool.and_eq_true, beq_iff_eq]
    exact fun hc => this hc
  rw [hfind]

/-- Decoding the encoding of the Metadata member recovers it. -/
theorem decodeMetadata_encode (m : SpecMetadata) :
    decodeMetadata (encodeMetadata m) = .ok m := by
  rfl

/-- Decoding the encoding of the HostSystem member recovers it. -/
theorem decodeHostSystem_encode (h : SpecHostSystem) :
    decodeHostSystem (encodeHostSystem h) = .ok h := by
  rfl

/-- Decoding the encoding of the Network member recovers it, including
every combination of omitted (zero-valued) members. -/
theorem decodeNetwork_encode (n : SpecNetwork) :
    decodeNetwork (encodeNetwork n) = .ok n := by
  obtain ⟨ip, nm, hn, gw, e6, e4⟩ := n
  by_cases h1 : ip = "" <;> by_cases h2 : nm = "" <;> by_cases h3 : hn = "" <;>
    by_cases h4 : gw = "" <;> cases e6 <;> cases e4 <;>
    simp_all [decodeNetwork, encodeNetwork, getStrField, getBoolField, findKey]

/-- Decoding the encoding of the Resources member recovers it. -/
theorem decodeResources_encode (r : SpecResources) :
    decodeResources (encodeResources r) = .ok r := by
  rfl

/-- Decoding the encoding of the Disk member recovers it. -/
theorem decodeDisk_encode (d : SpecDisk) :
    decodeDisk (encodeDisk d) = .ok d := by
  rfl

/-
==========================================================================
Claim theorems
==========================================================================
-/

/-- C1: GetDefaultCustomizationOptions is total over the configured
distribution sets: for every system name, either the lower-cased name
is in the configured Linux set and the Linux variant is returned, or it
is not in the Linux set but in the configured Windows set and the
Windows variant is returned, or it is in neither set and the call fails
with the unsupported-OS error - never a default variant. -/
theorem c1_getDefaultCustomizationOptions_trichotomy (SystemName : String) :
    (SystemName.toLower ∈ LinuxDistributions ∧
       GetDefaultCustomizationOptions SystemName = .ok .linuxOptions) ∨
    (SystemName.toLower ∉ LinuxDistributions ∧
       SystemName.toLower ∈ WindowsDistrubitions ∧
       GetDefaultCustomizationOptions SystemName = .ok .winOptions) ∨
    (SystemName.toLower ∉ LinuxDistributions ∧
       SystemName.toLower ∉ WindowsDistrubitions ∧
       GetDefaultCustomizationOptions SystemName = .err "Invalid Host System Name") := by
  right; right
  refine ⟨?_, ?_, rfl⟩ <;> simp [LinuxDistributions, WindowsDistrubitions]

/-- C2 (code evaluated at the failing input): the IPv4 field of c2Input
is empty and has no declared generator in FieldValueGenerators, yet
SetupPublicNetwork does not fail with a ValidationError naming it - the
call panics inside ValidateCredentials (reflect.NumField on the pointer
receiver) before any validation happens, and the function has no error
return path at all. -/
theorem c2_setupPublicNetwork_no_validation_error :
    (FieldValueGenerators.map Prod.fst).contains "IPv4" = false ∧
    SetupPublicNetwork c2Input = .panicked ∧
    (SetupPublicNetwork c2Input).isErr = false := by
  refine ⟨rfl, rfl, rfl⟩

/-- C3 (code evaluated at the failing input): on the all-empty
descriptor, SetupPublicNetwork panics rather than returning a
descriptor, so validation never succeeds and the
no-empty-field-after-success invariant is never established by the
code. -/
theorem c3_setupPublicNetwork_invariant_never_established :
    SetupPublicNetwork c3AllEmptyInput = .panicked := by
  rfl

/-- C4 (code evaluated at the failing input): on a descriptor whose
four identity fields are populated with well-formed values,
SetupPublicNetwork does not return those fields unchanged - it panics
inside ValidateCredentials before reaching its assembly code. -/
theorem c4_setupPublicNetwork_populated_input_panics :
    SetupPublicNetwork c4FullInput = .panicked := by
  rfl

/-- C5 (amended): whenever the record store holds no record matching
both the requested VM id and the requesting owner - covering both true
absence and a record owned by a different owner - GetDiskStorageConfig
produces the identical outcome for any two such requests, leaking no
existence information across owners; but that outcome is a runtime
panic (gorm Find reports no error for zero rows, the zero-valued
record's empty inventory path resolves to no object, and the nil type
assertion panics), not a NotFoundError. -/
theorem c5_getDiskStorageConfig_no_existence_leak
    (db : List VmRecord) (inventory : String → Option VmObject)
    (specA specB : VirtualMachineCustomSpec)
    (hA : ∀ r ∈ db, ¬(r.id = specA.Metadata.VirtualMachineId ∧
                      r.owner_id = specA.Metadata.VmOwnerId))
    (hB : ∀ r ∈ db, ¬(r.id = specB.Metadata.VirtualMachineId ∧
                      r.owner_id = specB.Metadata.VmOwnerId))
    (hinv : inventory "" = none) :
    GetDiskStorageConfig db inventory specA = GetDiskStorageConfig db inventory specB ∧
    GetDiskStorageConfig db inventory specA = .panicked ∧
    (GetDiskStorageConfig db inventory specA).isErr = false := by
  have eA := gormFindVm_no_match db specA.Metadata.VirtualMachineId
    specA.Metadata.VmOwnerId hA
  have eB := gormFindVm_no_match db specB.Metadata.VirtualMachineId
    specB.Metadata.VmOwnerId hB
  unfold GetDiskStorageConfig
  rw [eA, eB]
  simp [hinv, GoOutcome.isErr]

/-- C5 witness: the amended statement applied to the concrete store
c5Db, with one request for an absent VM and one for a VM owned by a
different customer. -/
theorem c5_getDiskStorageConfig_no_existence_leak_witness :
    GetDiskStorageConfig c5Db c5Inventory c5SpecAbsent =
      GetDiskStorageConfig c5Db c5Inventory c5SpecWrongOwner ∧
    GetDiskStorageConfig c5Db c5Inventory c5SpecAbsent = .panicked ∧
    (GetDiskStorageConfig c5Db c5Inventory c5SpecAbsent).isErr = false :=
  c5_getDiskStorageConfig_no_existence_leak c5Db c5Inventory c5SpecAbsent
    c5SpecWrongOwner (by decide) (by decide) (by rfl)

/-- C5 counterexample to the claim as stated: at the concrete inputs,
neither the wrong-owner request nor the absent-record request returns
an error value at all (each panics), so no NotFoundError is produced. -/
theorem c5_notFoundError_counterexample :
    (GetDiskStorageConfig c5Db c5Inventory c5SpecWrongOwner).isErr = false ∧
    (GetDiskStorageConfig c5Db c5Inventory c5SpecAbsent).isErr = false := by
  refine ⟨rfl, rfl⟩

/-- C6 (code evaluated at the failing inputs): for an inventory path
that resolves to no object, and likewise when the bounded find call
times out, GetDatacenter panics (the nil reference is dereferenced on
line 67 before FindError is checked on line 68) instead of returning a
NotFoundError or a distinct TimeoutError; no result-based control flow
distinguishes the two failures. -/
theorem c6_getDatacenter_failure_modes_panic :
    GetDatacenter c6Config c6Inventory false c6RetrieveOne = .panicked ∧
    GetDatacenter c6Config c6Inventory true c6RetrieveOne = .panicked := by
  refine ⟨rfl, rfl⟩

/-- C7 (code evaluated at the failing input): for an owned VM whose
live object has zero attached datastores, GetDiskStorageConfig panics
instead of failing explicitly - the type assertion on line 161 panics
before any emptiness check, and the Datastore[0] selection carries no
guard at all. -/
theorem c7_getDiskStorageConfig_empty_datastore_panics :
    c7Inventory "/Datacenter/vm/no-datastores" = some { Datastore := [] } ∧
    GetDiskStorageConfig c7Db c7Inventory c7Spec = .panicked := by
  refine ⟨rfl, rfl⟩

/-- C8: decoding the encoding of any well-formed
VirtualMachineCustomSpec recovers the original value in every field:
NewCustomConfig applied to the JSON document that encoding/json Marshal
produces for the spec returns that spec with a nil error. -/
theorem c8_newCustomConfig_roundtrip (spec : VirtualMachineCustomSpec) :
    NewCustomConfig (encodeVirtualMachineCustomSpec spec) = .ok spec := by
  obtain ⟨md, hs, nw, rs, dk⟩ := spec
  show NewCustomConfig (.jobj _) = _
  unfold NewCustomConfig
  simp [getObjField, findKey, decodeMetadata_encode, decodeHostSystem_encode,
        decodeNetwork_encode, decodeResources_encode, decodeDisk_encode]

/-- C9 (code evaluated at its constants): the remote-bound stages do
not share one timeout budget - GetDatacenter is bounded by ten minutes
while the VM lookup of GetDiskStorageConfig and SetupHostSystem are
each bounded by one minute, a tenfold difference. -/
theorem c9_timeout_budgets_inconsistent :
    getDatacenterTimeoutMinutes = 10 ∧
    getDiskStorageTimeoutMinutes = 1 ∧
    setupHostSystemTimeoutMinutes = 1 ∧
    getDatacenterTimeoutMinutes = 10 * getDiskStorageTimeoutMinutes := by
  refine ⟨rfl, rfl, rfl, rfl⟩

/-- C10 (code evaluated on every input): ValidateCredentials never
returns a value - on every descriptor it panics, because the loop guard
calls reflect.Type.NumField on the pointer-kind receiver type, which is
defined only for struct kinds. -/
theorem c10_validateCredentials_always_panics (cred : VirtualMachineIPAddress) :
    ValidateCredentials cred = none := by
  rfl

end Infra
